import Mathlib

/-!
Verification of the stepper motion core in `src/Marlin/stepper.cpp` of the
TL-D3 firmware.  The definitions below are shallow embeddings of the data
model and the algorithms of that file: the Bresenham multi-axis interpolation
loop, the step-events-completed bookkeeping, the step-rate timer lookup
`calc_timer`, the trapezoid rate selection, the endstop debounce latches,
`quickStop` and `enable_endstops`.  Machine integers are modelled as `Nat`
or `Int` with explicit `% 2^w` where overflow matters.
-/

set_option maxHeartbeats 1000000

/-- State of one axis inside the Bresenham interpolation loop of
`Step_Controll`: the signed accumulator (`counter_x` and friends), the number
of step pulses emitted so far on this axis during the block, and the signed
absolute position counter `count_position` for the axis. -/
structure AxisState where
  counter : Int
  pulses : Nat
  pos : Int
deriving Repr, DecidableEq

/-- One Bresenham step event for a single axis, as in the body of the step
loop of `Step_Controll` (lines 683-804): `counter += steps; if (counter > 0)
{ emit a step pulse; counter -= step_event_count; count_position +=
count_direction; }`.  `pulses` counts the emitted step pulses. -/
def axisStep (steps N : Nat) (dir : Int) (st : AxisState) : AxisState :=
  let c := st.counter + (steps : Int)
  if 0 < c then
    { counter := c - (N : Int), pulses := st.pulses + 1, pos := st.pos + dir }
  else
    { counter := c, pulses := st.pulses, pos := st.pos }

/-- Per-axis state at block pickup (lines 368-372 of `Step_Controll`):
`counter_x = -(current_block->step_event_count >> 1)`, no pulses emitted yet,
position taken from the global counter. -/
def axisInit (N : Nat) (p0 : Int) : AxisState :=
  { counter := -((N >>> 1 : Nat) : Int), pulses := 0, pos := p0 }

/-- Run `k` successive step events on one axis. -/
def axisRun (steps N : Nat) (dir : Int) : Nat → AxisState → AxisState
  | 0, st => st
  | k + 1, st => axisStep steps N dir (axisRun steps N dir k st)

lemma axisRun_succ (steps N : Nat) (dir : Int) (k : Nat) (st : AxisState) :
    axisRun steps N dir (k + 1) st = axisStep steps N dir (axisRun steps N dir k st) := rfl

/-- The Bresenham loop invariant for one axis: after `k` events the
accumulator equals `k*steps - (N/2) - pulses*N`, stays in the half-open
interval `(-N, 0]`, and the position counter has moved by `pulses * dir`. -/
lemma axisRun_invariant (steps N : Nat) (dir : Int) (p0 : Int)
    (hs : steps ≤ N) (hN : 1 ≤ N) (k : Nat) :
    (axisRun steps N dir k (axisInit N p0)).counter
      = (k : Int) * steps - ((N / 2 : Nat) : Int)
        - ((axisRun steps N dir k (axisInit N p0)).pulses : Int) * N
    ∧ -(N : Int) < (axisRun steps N dir k (axisInit N p0)).counter
    ∧ (axisRun steps N dir k (axisInit N p0)).counter ≤ 0
    ∧ (axisRun steps N dir k (axisInit N p0)).pos
      = p0 + ((axisRun steps N dir k (axisInit N p0)).pulses : Int) * dir := by
  induction k with
  | zero =>
    simp only [axisRun, axisInit, Nat.shiftRight_one]
    refine ⟨by push_cast; ring, ?_, ?_, by push_cast; ring⟩
    · have : N / 2 < N := Nat.div_lt_self hN (by omega)
      omega
    · omega
  | succ k ih =>
    obtain ⟨ic, ilo, ihi, ipos⟩ := ih
    rw [axisRun_succ]
    set P := axisRun steps N dir k (axisInit N p0) with hP
    unfold axisStep
    by_cases hc : 0 < P.counter + (steps : Int)
    · simp only [hc, if_pos]
      refine ⟨?_, ?_, ?_, ?_⟩
      · rw [ic]; push_cast; ring
      · omega
      · omega
      · rw [ipos]; push_cast; ring
    · simp only [hc, if_neg, not_false_iff]
      refine ⟨?_, ?_, ?_, ?_⟩
      · rw [ic]; push_cast; ring
      · omega
      · omega
      · exact ipos

/-- Degenerate block: with `step_event_count = 0` every per-axis step count is
zero, and the Bresenham state never changes. -/
lemma axisRun_zero_N (dir : Int) (p0 : Int) (k : Nat) :
    axisRun 0 0 dir k (axisInit 0 p0) = axisInit 0 p0 := by
  induction k with
  | zero => rfl
  | succ k ih =>
    rw [axisRun_succ, ih]
    simp [axisStep, axisInit]

/-- Bresenham exactness for one axis: running `step_event_count` events emits
exactly `steps` pulses and moves the position by `steps * dir`. -/
lemma axisRun_total (steps N : Nat) (dir : Int) (p0 : Int) (hs : steps ≤ N) :
    (axisRun steps N dir N (axisInit N p0)).pulses = steps
    ∧ (axisRun steps N dir N (axisInit N p0)).pos = p0 + (steps : Int) * dir := by
  rcases Nat.eq_zero_or_pos N with hN0 | hNpos
  · subst hN0
    have hs0 : steps = 0 := Nat.le_zero.mp hs
    subst hs0
    rw [axisRun_zero_N]
    simp [axisInit]
  · obtain ⟨ic, ilo, ihi, ipos⟩ := axisRun_invariant steps N dir p0 hs hNpos N
    set P := axisRun steps N dir N (axisInit N p0) with hP
    have hhalf : N / 2 < N := Nat.div_lt_self hNpos (by omega)
    have hhalf' : ((N / 2 : Nat) : Int) < (N : Int) := by exact_mod_cast hhalf
    have hNpos' : (0 : Int) < (N : Int) := by exact_mod_cast hNpos
    have hA : (N : Int) * steps - ((N / 2 : Nat) : Int) ≤ (P.pulses : Int) * N := by
      have h0 := ihi
      rw [ic] at h0
      linarith
    have hB : (P.pulses : Int) * N < (N : Int) * steps + ((N : Int) - ((N / 2 : Nat) : Int)) := by
      have h0 := ilo
      rw [ic] at h0
      linarith
    have hgt : ((steps : Int) - 1) * N < (P.pulses : Int) * N := by
      have he : ((steps : Int) - 1) * N = (N : Int) * steps - N := by ring
      rw [he]; linarith
    have hlt : (P.pulses : Int) * N < ((steps : Int) + 1) * N := by
      have he : ((steps : Int) + 1) * N = (N : Int) * steps + N := by ring
      rw [he]; linarith
    have e1 : (steps : Int) - 1 < (P.pulses : Int) :=
      lt_of_mul_lt_mul_right hgt (le_of_lt hNpos')
    have e2 : (P.pulses : Int) < (steps : Int) + 1 :=
      lt_of_mul_lt_mul_right hlt (le_of_lt hNpos')
    have hpe : P.pulses = steps := by omega
    exact ⟨hpe, by rw [ipos, hpe]⟩

/-- The fields of the planner block `block_t` read by the stepper core in
`Step_Controll`.  Per-axis step counts are stored in four separate fields, as
in the source; rates are in steps per second.  All fields are nonnegative
machine integers modelled as `Nat`. -/
structure MotionBlock where
  steps_x : Nat
  steps_y : Nat
  steps_z : Nat
  steps_e : Nat
  step_event_count : Nat
  initial_rate : Nat
  nominal_rate : Nat
  final_rate : Nat
  acceleration_rate : Nat
  accelerate_until : Nat
  decelerate_after : Nat
deriving Repr, DecidableEq

/-- The per-axis step count, indexed in the order X, Y, Z, E. -/
def MotionBlock.steps (b : MotionBlock) : Fin 4 → Nat :=
  ![b.steps_x, b.steps_y, b.steps_z, b.steps_e]

/-- One step event of the Bresenham loop over all four axes: the four
`counter_* += steps_*` blocks in the loop body of `Step_Controll`.  The axes
are updated independently of one another. -/
def bresEvent (b : MotionBlock) (dir : Fin 4 → Int)
    (st : Fin 4 → AxisState) : Fin 4 → AxisState :=
  fun a => axisStep (b.steps a) b.step_event_count (dir a) (st a)

/-- Run `k` successive step events of the four-axis Bresenham loop. -/
def bresRun (b : MotionBlock) (dir : Fin 4 → Int) :
    Nat → (Fin 4 → AxisState) → Fin 4 → AxisState
  | 0, st => st
  | k + 1, st => bresEvent b dir (bresRun b dir k st)

/-- Four-axis state at block pickup: all four accumulators are set to
`-(step_event_count >> 1)` (lines 368-371), positions come from the global
`count_position`. -/
def bresInit (b : MotionBlock) (p0 : Fin 4 → Int) : Fin 4 → AxisState :=
  fun a => axisInit b.step_event_count (p0 a)

/-- The four axes evolve independently: projecting the four-axis run at one
axis gives the single-axis run. -/
lemma bresRun_apply (b : MotionBlock) (dir : Fin 4 → Int) (p0 : Fin 4 → Int)
    (k : Nat) (a : Fin 4) :
    bresRun b dir k (bresInit b p0) a
      = axisRun (b.steps a) b.step_event_count (dir a) k (axisInit b.step_event_count (p0 a)) := by
  induction k with
  | zero => rfl
  | succ k ih =>
    show bresEvent b dir (bresRun b dir k (bresInit b p0)) a = _
    rw [axisRun_succ]
    unfold bresEvent
    rw [ih]

/-- Claim C1: for every block whose per-axis step counts are bounded by
`step_event_count` (in particular when `step_event_count` is their maximum),
executing exactly `step_event_count` step events of the Bresenham loop emits
exactly `steps[a]` pulses on each axis `a` and changes `count_position[a]` by
exactly `steps[a] * count_direction[a]`, with the accumulators initialized to
`-(step_event_count >> 1)` at block pickup. -/
theorem bresenham_block_exact (b : MotionBlock) (dir : Fin 4 → Int) (p0 : Fin 4 → Int)
    (hmax : ∀ a, b.steps a ≤ b.step_event_count) (a : Fin 4) :
    (bresRun b dir b.step_event_count (bresInit b p0) a).pulses = b.steps a
    ∧ (bresRun b dir b.step_event_count (bresInit b p0) a).pos
      = p0 a + (b.steps a : Int) * dir a := by
  rw [bresRun_apply]
  exact axisRun_total (b.steps a) b.step_event_count (dir a) (p0 a) (hmax a)

/-- A small concrete diagonal block used to exercise the Bresenham theorems:
steps (3, 4, 0, 0) with `step_event_count = 4`. -/
def sampleBlock34 : MotionBlock :=
  { steps_x := 3, steps_y := 4, steps_z := 0, steps_e := 0,
    step_event_count := 4, initial_rate := 1000, nominal_rate := 1000,
    final_rate := 1000, acceleration_rate := 0, accelerate_until := 0,
    decelerate_after := 4 }

/-- Witness for C1: the block with steps (3, 4, 0, 0) and
`step_event_count = 4`, executed for 4 events, emits 3 pulses on X and moves
X by 3 steps in the negative direction. -/
theorem bresenham_block_exact_witness :
    (bresRun sampleBlock34 (fun _ => -1) 4
        (bresInit sampleBlock34 (fun _ => 0)) 0).pulses = 3
    ∧ (bresRun sampleBlock34 (fun _ => -1) 4
        (bresInit sampleBlock34 (fun _ => 0)) 0).pos = 0 + ((3 : Nat) : Int) * (-1) :=
  bresenham_block_exact sampleBlock34 (fun _ => -1) (fun _ => 0) (by decide) 0

/-- The scenario-S2 block of the specification: steps (300, 400, 0, 0) with
`step_event_count = 400`. -/
def blockS2 : MotionBlock :=
  { steps_x := 300, steps_y := 400, steps_z := 0, steps_e := 0,
    step_event_count := 400, initial_rate := 1000, nominal_rate := 1000,
    final_rate := 1000, acceleration_rate := 0, accelerate_until := 0,
    decelerate_after := 400 }

/-- Counterexample to C8 as stated: after k = 2 step events of the S2 block
the Bresenham loop has emitted 1 X pulse, not floor((2*300 + 200)/400) = 2.
The loop pulses only on a strictly positive accumulator, so the accumulator
value 0 reached at the second event does not pulse. -/
theorem bresenham_s2_claim_false :
    (bresRun blockS2 (fun _ => 1) 2 (bresInit blockS2 (fun _ => 0)) 0).pulses
      ≠ (2 * 300 + 200) / 400 := by
  decide

/-- Claim C8 (amended): for the block with steps (300, 400, 0, 0) and
`step_event_count = 400`, after k step events the cumulative number of X
pulses emitted by the Bresenham loop equals floor((k*300 + 199)/400); the
exact strict-inequality pulse condition of the code shifts the claimed
rounding offset from 200 down to 199. -/
theorem bresenham_s2_x_pulses (dir : Fin 4 → Int) (p0 : Fin 4 → Int) (k : Nat) :
    (bresRun blockS2 dir k (bresInit blockS2 p0) 0).pulses = (k * 300 + 199) / 400 := by
  rw [bresRun_apply]
  have hsteps : blockS2.steps 0 = 300 := rfl
  have hN : blockS2.step_event_count = 400 := rfl
  rw [hsteps, hN]
  obtain ⟨ic, ilo, ihi, -⟩ :=
    axisRun_invariant 300 400 (dir 0) (p0 0) (by norm_num) (by norm_num) k
  omega

/-- The effect of the Bresenham for loop of `Step_Controll` on
`step_events_completed`: each of the up to `step_loops` iterations does
`step_events_completed += 1` and the loop breaks once
`step_events_completed >= step_event_count` (lines 806-812). -/
def bresLoopCompleted (N : Nat) : Nat → Nat → Nat
  | 0, c => c
  | l + 1, c =>
    if N ≤ c + 1 then c + 1 else bresLoopCompleted N l (c + 1)

/-- One interrupt tick's effect on `step_events_completed` while a block is
active, together with the discard decision: an endstop hit earlier in the
tick forces `step_events_completed = step_event_count` (lines 486-491 and
peers), then the step loop runs `loops` iterations, and the block is
discarded at the end of the tick exactly when `step_events_completed >=
step_event_count` (lines 923-928).  Returns the new count and whether
`plan_discard_current_block` is called. -/
def tickCompleted (N loops : Nat) (endstopForce : Bool) (c : Nat) : Nat × Bool :=
  let c1 := if endstopForce then N else c
  let c2 := bresLoopCompleted N loops c1
  (c2, decide (N ≤ c2))

lemma bresLoopCompleted_le (N : Nat) : ∀ loops c, c ≤ bresLoopCompleted N loops c := by
  intro loops
  induction loops with
  | zero => intro c; exact Nat.le_refl c
  | succ l ih =>
    intro c
    unfold bresLoopCompleted
    by_cases h : N ≤ c + 1
    · simp only [h, if_pos]; omega
    · simp only [h, if_neg, not_false_iff]
      exact Nat.le_trans (Nat.le_succ c) (ih (c + 1))

/-- Claim C6: while a block executes, `step_events_completed` never decreases
across a tick, the block is discarded exactly when `step_events_completed >=
step_event_count` at the end of the tick, and an endstop hit forces that
condition by setting `step_events_completed = step_event_count` directly. -/
theorem step_events_completed_monotone (N loops : Nat) (endstopForce : Bool)
    (c : Nat) (hc : c ≤ N) :
    c ≤ (tickCompleted N loops endstopForce c).1
    ∧ ((tickCompleted N loops endstopForce c).2 = true
        ↔ N ≤ (tickCompleted N loops endstopForce c).1)
    ∧ (endstopForce = true →
        N ≤ (tickCompleted N loops endstopForce c).1
        ∧ (tickCompleted N loops endstopForce c).2 = true) := by
  unfold tickCompleted
  cases endstopForce with
  | false =>
    refine ⟨bresLoopCompleted_le N loops c, ?_, ?_⟩
    · simp [decide_eq_true_iff]
    · intro h; cases h
  | true =>
    have h1 : N ≤ bresLoopCompleted N loops N := bresLoopCompleted_le N loops N
    refine ⟨?_, ?_, ?_⟩
    · simpa using Nat.le_trans hc h1
    · simp [decide_eq_true_iff]
    · intro _
      simp only [if_pos]
      exact ⟨h1, by simp [decide_eq_true_iff, h1]⟩

/-- Witness for C6: a tick with `step_event_count = 5`, two loop iterations,
no endstop hit, starting from 3 completed events reaches 5 and discards. -/
theorem step_events_completed_monotone_witness :
    3 ≤ (tickCompleted 5 2 false 3).1
    ∧ ((tickCompleted 5 2 false 3).2 = true ↔ 5 ≤ (tickCompleted 5 2 false 3).1)
    ∧ (false = true →
        5 ≤ (tickCompleted 5 2 false 3).1 ∧ (tickCompleted 5 2 false 3).2 = true) :=
  step_events_completed_monotone 5 2 false 3 (by decide)

/-- The AVR inline-assembly fixed-point multiply `MultiU16X8toH16` of
`stepper.cpp`: for an 8-bit `charIn` and a 16-bit `intIn` it computes
`charIn * intIn` shifted down by 8 with round-to-nearest on the dropped bit,
truncated to 16 bits (the byte-level schedule of the assembly). -/
def MultiU16X8toH16 (charIn intIn : Nat) : Nat :=
  ((charIn % 256) * (intIn % 65536) + 128) / 256 % 65536

/-- The AVR inline-assembly fixed-point multiply `MultiU24X24toH16` of
`stepper.cpp`: the high 16 bits of the 48-bit product of the low 24 bits of
each operand, shifted down by 24 with round-to-nearest on bit 23.  The
hand-rolled assembly drops some low-order carry propagation; the ideal
rounded value is used here, and no theorem below depends on the exact value
of this function. -/
def MultiU24X24toH16 (longIn1 longIn2 : Nat) : Nat :=
  ((longIn1 % 16777216) * (longIn2 % 16777216) + 8388608) / 16777216 % 65536

/-- 16-bit wrapping subtraction, as performed on the `unsigned short` timer
variable in `calc_timer`. -/
def wsub16 (a b : Nat) : Nat := (a % 65536 + 65536 - b % 65536) % 65536

/-- Result record of `calc_timer`: the timer compare value, the `step_loops`
pulse multiplier written to the global, and whether the too-high-step-rate
warning was printed over serial. -/
structure TimerResult where
  timer : Nat
  step_loops : Nat
  warned : Bool
deriving Repr, DecidableEq

/-- Model of `calc_timer` of `stepper.cpp` (lines 262-308).  The lookup tables
(`speed_lookuptable_fast` / `speed_lookuptable_slow` of
`speed_lookuptable.h`) and the configuration constants `MAX_STEP_FREQUENCY`
and `F_CPU / 500000` live outside `stepper.cpp`, so they are parameters
here: `fastBase idx` / `fastGain idx` are the two words of fast-table row
`idx`, and `slowBase off` / `slowGain off` are the words at byte offset
`off` and `off + 2` of the slow table.  The structure of the computation —
the clamp to `maxFreq`, the 4x/2x pulse-multiplier ranges with their masks,
the minimal-speed floor, the two-range interpolation with 16-bit wrapping
subtraction, and the final clamp of any `timer < 100` to 100 with a serial
warning — is exactly that of the source. -/
def calc_timer_lookup (maxFreq floorRate : Nat)
    (fastBase fastGain slowBase slowGain : Nat → Nat) (step_rate : Nat) : Nat × Nat :=
  let r1 := if maxFreq < step_rate then maxFreq else step_rate
  let rl : Nat × Nat :=
    if 20000 < r1 then ((r1 >>> 2) &&& 0x3fff, 4)
    else if 10000 < r1 then ((r1 >>> 1) &&& 0x7fff, 2)
    else (r1, 1)
  let r2 := if rl.1 < floorRate then floorRate else rl.1
  let r3 := r2 - floorRate
  let timer0 :=
    if 8 * 256 ≤ r3 then
      let idx := (r3 >>> 8) &&& 0xff
      wsub16 (fastBase idx) (MultiU16X8toH16 (r3 &&& 0xff) (fastGain idx))
    else
      let off := (r3 >>> 1) &&& 0xfffc
      wsub16 (slowBase off) ((slowGain off % 65536) * (r3 &&& 0x7) % 65536 >>> 3)
  (timer0, rl.2)

/-- The final clamp of `calc_timer`: `if (timer < 100) { timer = 100;
print the too-high warning; }`, then return. -/
def calc_timer (maxFreq floorRate : Nat)
    (fastBase fastGain slowBase slowGain : Nat → Nat) (step_rate : Nat) : TimerResult :=
  if (calc_timer_lookup maxFreq floorRate fastBase fastGain slowBase slowGain step_rate).1 < 100 then
    { timer := 100,
      step_loops := (calc_timer_lookup maxFreq floorRate fastBase fastGain slowBase slowGain step_rate).2,
      warned := true }
  else
    { timer := (calc_timer_lookup maxFreq floorRate fastBase fastGain slowBase slowGain step_rate).1,
      step_loops := (calc_timer_lookup maxFreq floorRate fastBase fastGain slowBase slowGain step_rate).2,
      warned := false }

/-- Claim C3: for every step rate and every table contents and configuration,
`calc_timer` returns a timer value of at least 100; when the interpolated
table value falls below 100 the result is clamped to exactly 100 and the
warning flag is raised, and the function still returns normally. -/
theorem calc_timer_floor (maxFreq floorRate : Nat)
    (fastBase fastGain slowBase slowGain : Nat → Nat) (step_rate : Nat) :
    100 ≤ (calc_timer maxFreq floorRate fastBase fastGain slowBase slowGain step_rate).timer
    ∧ ((calc_timer maxFreq floorRate fastBase fastGain slowBase slowGain step_rate).warned = true →
        (calc_timer maxFreq floorRate fastBase fastGain slowBase slowGain step_rate).timer = 100) := by
  unfold calc_timer
  by_cases h :
      (calc_timer_lookup maxFreq floorRate fastBase fastGain slowBase slowGain step_rate).1 < 100
  · rw [if_pos h]
    exact ⟨le_refl 100, fun _ => rfl⟩
  · rw [if_neg h]
    exact ⟨Nat.le_of_not_lt h, fun hw => by simp at hw⟩

/-- The trapezoid-generator state carried across ticks by `Step_Controll`:
the current acceleration-phase rate `acc_step_rate` and the accumulated
acceleration and deceleration times fed to the fixed-point velocity
equation.  Rates are bounded by `MAX_STEP_FREQUENCY < 2^16` for planner
blocks, so the 16-bit truncation of the block rate fields is the
identity and they are modelled as plain `Nat`. -/
structure TrapState where
  acc_step_rate : Nat
  acceleration_time : Nat
  deceleration_time : Nat
deriving Repr, DecidableEq

/-- Model of `trapezoid_generator_reset` of `stepper.cpp` (lines 312-322), restricted
to the state the rate computation reads: `deceleration_time = 0`,
`acc_step_rate = initial_rate`, and `acceleration_time = calc_timer
(initial_rate)`, whose value `t0` depends on the lookup tables and is passed
in. -/
def trapezoid_generator_reset (b : MotionBlock) (t0 : Nat) : TrapState :=
  { acc_step_rate := b.initial_rate, acceleration_time := t0, deceleration_time := 0 }

/-- The step rate selected by the trapezoid section at the end of
`Step_Controll` (lines 877-921), as a function of `step_events_completed`
and the trapezoid state: the acceleration branch computes `acc_step_rate =
((acceleration_time * acceleration_rate) >> 24) + initial_rate` with 16-bit
wraparound and clamps it from above to `nominal_rate`; the deceleration
branch computes the delta `(deceleration_time * acceleration_rate) >> 24`,
substitutes `final_rate` when the delta exceeds `acc_step_rate`, and
otherwise clamps `acc_step_rate - delta` from below to `final_rate`; the
cruise branch reuses the cached nominal timer, so its rate is
`nominal_rate`. -/
def trapRate (b : MotionBlock) (completed : Nat) (st : TrapState) : Nat :=
  if completed ≤ b.accelerate_until then
    let r0 := (MultiU24X24toH16 st.acceleration_time b.acceleration_rate + b.initial_rate) % 65536
    if b.nominal_rate < r0 then b.nominal_rate else r0
  else if b.decelerate_after < completed then
    let d := MultiU24X24toH16 st.deceleration_time b.acceleration_rate
    let r0 := if st.acc_step_rate < d then b.final_rate else st.acc_step_rate - d
    if r0 < b.final_rate then b.final_rate else r0
  else
    b.nominal_rate

/-- Counterexample to C2 as stated: the block with `initial_rate = 100`,
`final_rate = 200`, `nominal_rate = 300`, `accelerate_until =
decelerate_after = 1`, `step_event_count = 2` and zero acceleration rate
satisfies all block invariants assumed by the claim, yet at the first tick
(completed = 1, state fresh from `trapezoid_generator_reset`) the chosen
step rate is 100, which is below `final_rate = 200`. -/
theorem trapRate_claim_false :
    (let b : MotionBlock :=
      { steps_x := 2, steps_y := 0, steps_z := 0, steps_e := 0,
        step_event_count := 2, initial_rate := 100, nominal_rate := 300,
        final_rate := 200, acceleration_rate := 0, accelerate_until := 1,
        decelerate_after := 1 }
     b.initial_rate ≤ b.nominal_rate ∧ b.final_rate ≤ b.nominal_rate
     ∧ b.accelerate_until ≤ b.decelerate_after
     ∧ b.decelerate_after ≤ b.step_event_count
     ∧ trapRate b 1 (trapezoid_generator_reset b 32) = 100
     ∧ trapRate b 1 (trapezoid_generator_reset b 32) < b.final_rate) := by
  decide

/-- Claim C2 (amended): for a block with `accelerate_until ≤
decelerate_after` and `final_rate ≤ nominal_rate`, and a trapezoid state
with `acc_step_rate ≤ nominal_rate` (as maintained by the reset and the
acceleration clamp), every tick's chosen step rate is at most
`nominal_rate`; within the deceleration branch it is also at least
`final_rate`, it equals `final_rate` whenever the computed delta exceeds
`acc_step_rate`, and otherwise it is `acc_step_rate - delta` clamped from
below at `final_rate`.  The lower bound `final_rate ≤ step_rate` does not
hold in the acceleration branch when `initial_rate < final_rate`. -/
theorem trapRate_bounds (b : MotionBlock) (completed : Nat) (st : TrapState)
    (hfin : b.final_rate ≤ b.nominal_rate)
    (hphase : b.accelerate_until ≤ b.decelerate_after)
    (hacc : st.acc_step_rate ≤ b.nominal_rate) :
    trapRate b completed st ≤ b.nominal_rate
    ∧ (b.decelerate_after < completed →
        b.final_rate ≤ trapRate b completed st
        ∧ (st.acc_step_rate < MultiU24X24toH16 st.deceleration_time b.acceleration_rate →
            trapRate b completed st = b.final_rate)
        ∧ (MultiU24X24toH16 st.deceleration_time b.acceleration_rate ≤ st.acc_step_rate →
            trapRate b completed st
              = max b.final_rate
                  (st.acc_step_rate - MultiU24X24toH16 st.deceleration_time b.acceleration_rate))) := by
  unfold trapRate
  by_cases h1 : completed ≤ b.accelerate_until
  · rw [if_pos h1]
    constructor
    · by_cases h2 : b.nominal_rate <
          (MultiU24X24toH16 st.acceleration_time b.acceleration_rate + b.initial_rate) % 65536
      · rw [if_pos h2]
      · rw [if_neg h2]
        exact Nat.le_of_not_lt h2
    · intro hd
      omega
  · rw [if_neg h1]
    by_cases h2 : b.decelerate_after < completed
    · rw [if_pos h2]
      dsimp only
      set d := MultiU24X24toH16 st.deceleration_time b.acceleration_rate with hd
      by_cases h3 : st.acc_step_rate < d
      · rw [if_pos h3]
        rw [if_neg (lt_irrefl b.final_rate)]
        exact ⟨hfin, fun _ => ⟨le_refl _, fun _ => rfl,
          fun h4 => absurd h4 (Nat.not_le.mpr h3)⟩⟩
      · rw [if_neg h3]
        by_cases h4 : st.acc_step_rate - d < b.final_rate
        · rw [if_pos h4]
          refine ⟨hfin, fun _ => ⟨le_refl _, fun h5 => absurd h5 h3, fun _ => ?_⟩⟩
          omega
        · rw [if_neg h4]
          refine ⟨by omega, fun _ => ⟨by omega, fun h5 => absurd h5 h3, fun _ => ?_⟩⟩
          omega
    · rw [if_neg h2]
      exact ⟨le_refl _, fun hd => absurd hd h2⟩

/-- Witness for the amended C2: a deceleration tick of a block with
`final_rate = 50`, `nominal_rate = 300`, state `acc_step_rate = 250`, zero
acceleration rate (so the delta is zero): the chosen rate is 250, between
`final_rate` and `nominal_rate`. -/
theorem trapRate_bounds_witness :
    (let b : MotionBlock :=
      { steps_x := 4, steps_y := 0, steps_z := 0, steps_e := 0,
        step_event_count := 4, initial_rate := 100, nominal_rate := 300,
        final_rate := 50, acceleration_rate := 0, accelerate_until := 1,
        decelerate_after := 2 }
     let st : TrapState :=
      { acc_step_rate := 250, acceleration_time := 32, deceleration_time := 7 }
     trapRate b 3 st ≤ b.nominal_rate
     ∧ (b.decelerate_after < 3 →
        b.final_rate ≤ trapRate b 3 st
        ∧ (st.acc_step_rate < MultiU24X24toH16 st.deceleration_time b.acceleration_rate →
            trapRate b 3 st = b.final_rate)
        ∧ (MultiU24X24toH16 st.deceleration_time b.acceleration_rate ≤ st.acc_step_rate →
            trapRate b 3 st
              = max b.final_rate
                  (st.acc_step_rate - MultiU24X24toH16 st.deceleration_time b.acceleration_rate)))) :=
  trapRate_bounds
    { steps_x := 4, steps_y := 0, steps_z := 0, steps_e := 0,
      step_event_count := 4, initial_rate := 100, nominal_rate := 300,
      final_rate := 50, acceleration_rate := 0, accelerate_until := 1,
      decelerate_after := 2 }
    3
    { acc_step_rate := 250, acceleration_time := 32, deceleration_time := 7 }
    (by decide) (by decide) (by decide)

/-- The per-switch endstop monitoring state of `Step_Controll`: the
previous-sample debounce latch (`old_x_min_endstop` and friends), the sticky
hit flag (`endstop_x_hit` and friends), the trigger-position snapshot
`endstops_trigsteps[axis]`, and `step_events_completed`. -/
structure EndstopState where
  old : Bool
  hit : Bool
  trig : Int
  completed : Nat
deriving Repr, DecidableEq

/-- One tick of the per-switch endstop sampling-and-latch code of
`Step_Controll` (lines 484-494 for X-min and the analogous blocks for the
other five switches): the block runs only when a block is active
(`blockActive`), the direction branch selects this switch side (`dirSel`),
and the `bChecked` gate passes (`checked`, which also includes the dual-X
homing-direction gate where compiled).  Inside, a hit is latched when the
current sample and the previous-sample latch both read asserted and the
block has steps on this axis (`stepsPos`); latching snapshots
`count_position` into `trig` and forces `completed = step_event_count`.
The previous-sample latch is then always overwritten with the current
sample.  When the gate fails, nothing at all is updated. -/
def endstopCheck (blockActive dirSel checked stepsPos : Bool) (cur : Bool)
    (pos : Int) (N : Nat) (st : EndstopState) : EndstopState :=
  if blockActive && dirSel && checked then
    let st1 := if cur && st.old && stepsPos then
        { st with hit := true, trig := pos, completed := N }
      else st
    { st1 with old := cur }
  else st

/-- Claim C4: a hit is latched only when the switch reads asserted on two
consecutive sampled ticks and the block has steps on the axis and the
direction selects that side; a switch asserted for exactly one sampled tick
(previous sample deasserted) never latches; and two consecutive asserted
samples with the gates passing and steps on the axis do latch, snapshotting
the position and forcing completion. -/
theorem endstop_debounce :
    (∀ (A D C S cur : Bool) (pos : Int) (N : Nat) (st : EndstopState),
        st.hit = false → (endstopCheck A D C S cur pos N st).hit = true →
        cur = true ∧ st.old = true ∧ S = true ∧ A = true ∧ D = true ∧ C = true)
    ∧ (∀ (S : Bool) (pos1 pos2 : Int) (N : Nat) (st : EndstopState),
        st.hit = false → st.old = false →
        (endstopCheck true true true S false pos2 N
          (endstopCheck true true true S true pos1 N st)).hit = false)
    ∧ (∀ (pos1 pos2 : Int) (N : Nat) (st : EndstopState),
        (endstopCheck true true true true true pos2 N
          (endstopCheck true true true true true pos1 N st)).hit = true
        ∧ (endstopCheck true true true true true pos2 N
            (endstopCheck true true true true true pos1 N st)).trig = pos2
        ∧ (endstopCheck true true true true true pos2 N
            (endstopCheck true true true true true pos1 N st)).completed = N) := by
  refine ⟨?_, ?_, ?_⟩
  · rintro A D C S cur pos N ⟨o, h, t, c⟩ hhit hset
    cases A <;> cases D <;> cases C <;> cases S <;> cases cur <;> cases o <;>
      simp_all [endstopCheck]
  · rintro S pos1 pos2 N ⟨o, h, t, c⟩ hhit hold
    cases S <;> simp_all [endstopCheck]
  · rintro pos1 pos2 N ⟨o, h, t, c⟩
    cases o <;> cases h <;> simp [endstopCheck]

/-- Witness for C4: from a clean state, a one-tick glitch does not latch,
while two consecutive asserted samples latch with the position snapshot of
the second tick and completion forced to the block's event count. -/
theorem endstop_debounce_witness :
    (endstopCheck true true true true false 9 5
        (endstopCheck true true true true true 7 5
          { old := false, hit := false, trig := 0, completed := 0 })).hit = false
    ∧ (endstopCheck true true true true true 9 5
        (endstopCheck true true true true true 7 5
          { old := false, hit := false, trig := 0, completed := 0 })).hit = true :=
  ⟨endstop_debounce.2.1 true 7 9 5
      { old := false, hit := false, trig := 0, completed := 0 } rfl rfl,
    (endstop_debounce.2.2 7 9 5
      { old := false, hit := false, trig := 0, completed := 0 }).1⟩

/-- Claim C10: the previous-sample debounce latches are written only on
ticks where a block is active, the check gate passes and the direction
selects the switch side — on every other tick the whole endstop state,
including the latch, is untouched — and on a sampled tick the latch becomes
the current sample.  A latch value can therefore survive idle or
opposite-direction ticks and be compared against the first sample of a
later block. -/
theorem endstop_old_latch_frame :
    (∀ (A D C S cur : Bool) (pos : Int) (N : Nat) (st : EndstopState),
        (A && D && C) = false → endstopCheck A D C S cur pos N st = st)
    ∧ (∀ (S cur : Bool) (pos : Int) (N : Nat) (st : EndstopState),
        (endstopCheck true true true S cur pos N st).old = cur) := by
  constructor
  · intro A D C S cur pos N st hgate
    unfold endstopCheck
    rw [if_neg]
    rw [hgate]
    exact Bool.false_ne_true
  · intro S cur pos N st
    by_cases hcond : (cur && st.old && S) = true <;>
      simp [endstopCheck, hcond]

/-- Witness for C10: an idle tick (no active block) leaves the endstop state
untouched even though the switch reads asserted. -/
theorem endstop_old_latch_frame_witness :
    endstopCheck false true true true true 3 4
        { old := true, hit := false, trig := 0, completed := 0 }
      = { old := true, hit := false, trig := 0, completed := 0 } :=
  endstop_old_latch_frame.1 false true true true true 3 4
    { old := true, hit := false, trig := 0, completed := 0 } rfl

/-- The `bChecked` computation of `Step_Controll` (for example lines
469-477 for the negative-X branch) with the `CHECK_ENDSTOPS_X` and
`CHECK_ENDSTOPS_ALL` macros (lines 95-99) expanded to their `if` headers:
`bool bChecked = false; if (check_endstops_x) bChecked = true;
if (!bChecked) if (check_endstops_all) bChecked = true;` — the second
assignment is the body of the inner `if` and runs only when the axis flag
was clear and the global flag is set. -/
def bCheckedCalc (check_axis check_all : Bool) : Bool :=
  let b1 : Bool := false
  let b2 : Bool := if check_axis then true else b1
  let b3 : Bool := if !b2 then (if check_all then true else b2) else b2
  b3

/-- Claim C5: the `bChecked` computation through the macro expansions is
exactly the disjunction of the per-axis flag and the global flag; in
particular it is not unconditionally true, and it is false when both flags
are clear. -/
theorem bChecked_eq_disjunction :
    (∀ check_axis check_all : Bool,
        bCheckedCalc check_axis check_all = (check_axis || check_all))
    ∧ bCheckedCalc false false = false := by
  decide

/-- The stepper-core control state touched by `quickStop`: the `bQuickStop`
flag, the stepper timer-interrupt enable bit, the planner block ring buffer
(head first), and `current_block`. -/
structure StepperCtl where
  bQuickStop : Bool
  isrEnabled : Bool
  blockQueue : List Nat
  current_block : Option Nat
deriving Repr, DecidableEq

/-- The while loop of `quickStop`: `while (blocks_queued())
plan_discard_current_block();` — each discard removes the head block of the
planner buffer. -/
def discardAllBlocks : List Nat → List Nat
  | [] => []
  | _ :: rest => discardAllBlocks rest

/-- Model of `quickStop` of `stepper.cpp` (lines 1222-1231): raise `bQuickStop`,
disable the stepper interrupt, discard every queued block, clear
`current_block`, re-enable the interrupt, clear `bQuickStop`. -/
def quickStop (st : StepperCtl) : StepperCtl :=
  let st1 : StepperCtl := { st with bQuickStop := true }
  let st2 : StepperCtl := { st1 with isrEnabled := false }
  let st3 : StepperCtl := { st2 with blockQueue := discardAllBlocks st2.blockQueue }
  let st4 : StepperCtl := { st3 with current_block := none }
  let st5 : StepperCtl := { st4 with isrEnabled := true }
  { st5 with bQuickStop := false }

lemma discardAllBlocks_eq_nil : ∀ l : List Nat, discardAllBlocks l = [] := by
  intro l
  induction l with
  | nil => rfl
  | cons a rest ih => exact ih

/-- Claim C7: on return from `quickStop` the planner buffer is empty,
`current_block` is cleared, the quick-stop flag is down and the stepper
interrupt is enabled; calling it when the buffer is already empty, no block
is active, and the flags are at their resting values (quick-stop down,
interrupt enabled) leaves the state exactly unchanged. -/
theorem quickStop_drains (st : StepperCtl) :
    (quickStop st).blockQueue = []
    ∧ (quickStop st).current_block = none
    ∧ (quickStop st).bQuickStop = false
    ∧ (quickStop st).isrEnabled = true
    ∧ (st.blockQueue = [] → st.current_block = none → st.bQuickStop = false →
        st.isrEnabled = true → quickStop st = st) := by
  refine ⟨discardAllBlocks_eq_nil _, rfl, rfl, rfl, ?_⟩
  intro h1 h2 h3 h4
  obtain ⟨q, i, l, cb⟩ := st
  simp only at h1 h2 h3 h4
  subst h1; subst h2; subst h3; subst h4
  rfl

/-- Witness for C7: `quickStop` on the idle resting state is a no-op. -/
theorem quickStop_drains_witness :
    quickStop { bQuickStop := false, isrEnabled := true, blockQueue := [], current_block := none }
      = { bQuickStop := false, isrEnabled := true, blockQueue := [], current_block := none } :=
  (quickStop_drains
    { bQuickStop := false, isrEnabled := true, blockQueue := [], current_block := none
    }).2.2.2.2 rfl rfl rfl rfl

/-- The four endstop-check enable flags of `stepper.cpp` (lines 77-86). -/
structure EndstopEnable where
  x : Bool
  y : Bool
  z : Bool
  all : Bool
deriving Repr, DecidableEq

/-- Model of `enable_endstops` of `stepper.cpp` (lines 216-231): axis 0, 1, 2 set the
per-axis flag; axis -1 sets all three per-axis flags and the global flag;
any other axis value changes nothing. -/
def enable_endstops (check : Bool) (axis : Int) (f : EndstopEnable) : EndstopEnable :=
  if axis = 0 then { f with x := check }
  else if axis = 1 then { f with y := check }
  else if axis = 2 then { f with z := check }
  else if axis = -1 then { x := check, y := check, z := check, all := check }
  else f

/-- Claim C9: for axes 0, 1, 2 `enable_endstops` writes only that axis's
per-axis flag, leaving the other two per-axis flags and the global flag
unchanged; the global flag is written only when the axis is -1, in which
case all four flags become `check`. -/
theorem enable_endstops_frame (check : Bool) (f : EndstopEnable) :
    enable_endstops check 0 f = { f with x := check }
    ∧ enable_endstops check 1 f = { f with y := check }
    ∧ enable_endstops check 2 f = { f with z := check }
    ∧ (∀ axis : Int, axis ≠ -1 → (enable_endstops check axis f).all = f.all)
    ∧ enable_endstops check (-1) f = { x := check, y := check, z := check, all := check } := by
  refine ⟨rfl, rfl, rfl, ?_, rfl⟩
  intro axis hax
  unfold enable_endstops
  by_cases h0 : axis = 0
  · rw [if_pos h0]
  · rw [if_neg h0]
    by_cases h1 : axis = 1
    · rw [if_pos h1]
    · rw [if_neg h1]
      by_cases h2 : axis = 2
      · rw [if_pos h2]
      · rw [if_neg h2]
        rw [if_neg hax]

/-- Witness for C9: an out-of-range axis value leaves the global flag
untouched. -/
theorem enable_endstops_frame_witness :
    (enable_endstops true 5 { x := false, y := false, z := false, all := false }).all = false :=
  (enable_endstops_frame true
    { x := false, y := false, z := false, all := false }).2.2.2.1 5 (by decide)
